import Mathlib

/-!
Verification of the leveraged bond reinvestment simulator (`src/app.py`).

The computational core of the program (lines 43–105 of `app.py`) is embedded
shallowly over ℚ: the Python floats become exact rationals, the global
accumulator variables of the monthly loop become an explicit `State` threaded
through a pure step function `monthStep`, and the summary block after the loop
becomes `summary`, which is `none` when the record list is empty (in the
program, `df.iloc[-1]` on an empty frame raises).
-/

namespace BondSim

/-- Configuration of one simulation run: the sidebar inputs of `app.py`
(lines 29–41).  `months` is an integer so that a non-positive tenure can be
expressed; the loop `for month in range(1, months + 1)` runs
`max 0 months` times. -/
structure Config where
  initial_investment : ℚ
  high_yield_rate : ℚ
  treasury_rate : ℚ
  borrowing_rate : ℚ
  months : ℤ
  leverage_ratio : ℚ
  tax_rate : ℚ

/-- Line 44: `borrowed_amount = initial_investment * leverage_ratio`. -/
def borrowed_amount (cfg : Config) : ℚ :=
  cfg.initial_investment * cfg.leverage_ratio

/-- Line 47: `monthly_high = high_yield_rate / 12 / 100`. -/
def monthly_high (cfg : Config) : ℚ := cfg.high_yield_rate / 12 / 100

/-- Line 48: `monthly_treasury = treasury_rate / 12 / 100`. -/
def monthly_treasury (cfg : Config) : ℚ := cfg.treasury_rate / 12 / 100

/-- Line 49: `monthly_borrow = borrowing_rate / 12 / 100`. -/
def monthly_borrow (cfg : Config) : ℚ := cfg.borrowing_rate / 12 / 100

/-- The mutable variables of the loop in `app.py` (lines 52–57). -/
structure State where
  high_yield_principal : ℚ
  treasury_principal : ℚ
  borrowed_balance : ℚ
  total_reinvested : ℚ
  loan_interest_paid : ℚ
  total_interest_income : ℚ

/-- Initial values of the loop variables (lines 52–57). -/
def initState (cfg : Config) : State :=
  { high_yield_principal := cfg.initial_investment
    treasury_principal := borrowed_amount cfg
    borrowed_balance := borrowed_amount cfg
    total_reinvested := 0
    loan_interest_paid := 0
    total_interest_income := 0 }

/-- One row appended to `records` (lines 80–89). -/
structure Record where
  month : ℕ
  high_yield_interest : ℚ
  treasury_interest : ℚ
  total_interest_income : ℚ
  loan_interest_paid : ℚ
  taxable_income : ℚ
  treasury_balance : ℚ
  cumulative_loan_interest : ℚ

/-- One iteration of the loop body (lines 62–89), as a pure function from the
prior state to the new state and the appended record. -/
def monthStep (cfg : Config) (s : State) (month : ℕ) : State × Record :=
  let high_yield_interest := s.high_yield_principal * monthly_high cfg
  let treasury_interest := s.treasury_principal * monthly_treasury cfg
  let total_interest_income :=
    s.total_interest_income + (high_yield_interest + treasury_interest)
  let total_reinvestment := high_yield_interest + treasury_interest
  let treasury_principal := s.treasury_principal + total_reinvestment
  let total_reinvested := s.total_reinvested + total_reinvestment
  let monthly_loan_interest := s.borrowed_balance * monthly_borrow cfg
  let loan_interest_paid := s.loan_interest_paid + monthly_loan_interest
  ({ high_yield_principal := s.high_yield_principal
     treasury_principal := treasury_principal
     borrowed_balance := s.borrowed_balance
     total_reinvested := total_reinvested
     loan_interest_paid := loan_interest_paid
     total_interest_income := total_interest_income },
   { month := month
     high_yield_interest := high_yield_interest
     treasury_interest := treasury_interest
     total_interest_income := high_yield_interest + treasury_interest
     loan_interest_paid := monthly_loan_interest
     taxable_income := (high_yield_interest + treasury_interest) - monthly_loan_interest
     treasury_balance := treasury_principal
     cumulative_loan_interest := loan_interest_paid })

/-- Number of loop iterations: `range(1, months + 1)` has `max 0 months`
elements. -/
def monthsNat (cfg : Config) : ℕ := cfg.months.toNat

/-- State of the loop variables after `k` completed iterations. -/
def stateAfter (cfg : Config) : ℕ → State
  | 0 => initState cfg
  | k + 1 => (monthStep cfg (stateAfter cfg k) (k + 1)).1

/-- The record produced by iteration `k + 1` (the month with index `k + 1`). -/
def recordAt (cfg : Config) (k : ℕ) : Record :=
  (monthStep cfg (stateAfter cfg k) (k + 1)).2

/-- The list `records` built by the loop (lines 60–89), in iteration order. -/
def simRecords (cfg : Config) : List Record :=
  (List.range (monthsNat cfg)).map (recordAt cfg)

/-- The loop variables after the loop has finished. -/
def finalState (cfg : Config) : State := stateAfter cfg (monthsNat cfg)

/-- Line 99: the sum of the per-month "Taxable Income" column. -/
def total_taxable_income (cfg : Config) : ℚ :=
  ((simRecords cfg).map Record.taxable_income).sum

/-- Line 100: `tax_paid = total_taxable_income * (tax_rate / 100)`; note the
source applies no flooring at zero. -/
def tax_paid (cfg : Config) : ℚ :=
  total_taxable_income cfg * (cfg.tax_rate / 100)

/-- The summary quantities computed after the loop (lines 94–105). -/
structure Summary where
  final_treasury : ℚ
  total_loan_cost : ℚ
  total_taxable_income : ℚ
  tax_paid : ℚ
  investor_final : ℚ
  net_profit : ℚ
  annualized_return : ℚ

/-- The summary block (lines 94–105).  `df.iloc[-1]` reads the last record,
which exists only when the loop ran at least once; on an empty record list the
program raises, modelled as `none`. -/
def summary (cfg : Config) : Option Summary :=
  ((simRecords cfg).getLast?).map (fun last =>
    let final_treasury := last.treasury_balance
    let total_loan_cost := borrowed_amount cfg + last.cumulative_loan_interest
    let investor_final :=
      ((finalState cfg).high_yield_principal + final_treasury)
        - total_loan_cost - tax_paid cfg
    let net_profit := investor_final - cfg.initial_investment
    { final_treasury := final_treasury
      total_loan_cost := total_loan_cost
      total_taxable_income := total_taxable_income cfg
      tax_paid := tax_paid cfg
      investor_final := investor_final
      net_profit := net_profit
      annualized_return :=
        (net_profit / cfg.initial_investment) * (12 / (cfg.months : ℚ)) * 100 })

/-- The scenario of the spec's worked example: capital 100000, leverage 1,
rates 14 / 12 / 10 % p.a., one month, tax 25 %. -/
def scenarioConfig : Config :=
  { initial_investment := 100000
    high_yield_rate := 14
    treasury_rate := 12
    borrowing_rate := 10
    months := 1
    leverage_ratio := 1
    tax_rate := 25 }

/-- The exact (rational) single record the engine produces for
`scenarioConfig`: interest 3500/3 ≈ 1166.67 and 1000, reinvestment 6500/3
≈ 2166.67, loan interest 2500/3 ≈ 833.33, taxable income 4000/3 ≈ 1333.33. -/
def scenarioRecord : Record :=
  { month := 1
    high_yield_interest := 3500/3
    treasury_interest := 1000
    total_interest_income := 6500/3
    loan_interest_paid := 2500/3
    taxable_income := 4000/3
    treasury_balance := 306500/3
    cumulative_loan_interest := 2500/3 }

/-- The exact summary for `scenarioConfig`: tax 1000/3 ≈ 333.33 and net
profit exactly 1000. -/
def scenarioSummary : Summary :=
  { final_treasury := 306500/3
    total_loan_cost := 302500/3
    total_taxable_income := 4000/3
    tax_paid := 1000/3
    investor_final := 101000
    net_profit := 1000
    annualized_return := 12 }

/-- A configuration whose cumulative taxable income is negative: leverage 3,
instrument rates 1 % against a 20 % borrowing rate. -/
def negTaxConfig : Config :=
  { initial_investment := 100000
    high_yield_rate := 1
    treasury_rate := 1
    borrowing_rate := 20
    months := 1
    leverage_ratio := 3
    tax_rate := 25 }

/-- A configuration with negative initial capital and a positive tenure. -/
def negCapitalConfig : Config :=
  { initial_investment := -100000
    high_yield_rate := 14
    treasury_rate := 12
    borrowing_rate := 10
    months := 12
    leverage_ratio := 1
    tax_rate := 25 }

/-- A configuration with tenure zero. -/
def zeroTenureConfig : Config :=
  { initial_investment := 100000
    high_yield_rate := 14
    treasury_rate := 12
    borrowing_rate := 10
    months := 0
    leverage_ratio := 1
    tax_rate := 25 }

/-! Helper lemmas about the loop. -/

lemma stateAfter_high_yield (cfg : Config) :
    ∀ k, (stateAfter cfg k).high_yield_principal = cfg.initial_investment
  | 0 => rfl
  | k + 1 => stateAfter_high_yield cfg k

lemma stateAfter_borrowed (cfg : Config) :
    ∀ k, (stateAfter cfg k).borrowed_balance = borrowed_amount cfg
  | 0 => rfl
  | k + 1 => stateAfter_borrowed cfg k

lemma recordAt_month (cfg : Config) (k : ℕ) : (recordAt cfg k).month = k + 1 := rfl

lemma recordAt_treasury_balance (cfg : Config) (k : ℕ) :
    (recordAt cfg k).treasury_balance = (stateAfter cfg (k + 1)).treasury_principal :=
  rfl

lemma stateAfter_succ_treasury (cfg : Config) (k : ℕ) :
    (stateAfter cfg (k + 1)).treasury_principal
      = (stateAfter cfg k).treasury_principal
        + ((stateAfter cfg k).high_yield_principal * monthly_high cfg
            + (stateAfter cfg k).treasury_principal * monthly_treasury cfg) :=
  rfl

lemma monthly_high_nonneg (cfg : Config) (h : 0 ≤ cfg.high_yield_rate) :
    0 ≤ monthly_high cfg :=
  div_nonneg (div_nonneg h (by norm_num)) (by norm_num)

lemma monthly_treasury_nonneg (cfg : Config) (h : 0 ≤ cfg.treasury_rate) :
    0 ≤ monthly_treasury cfg :=
  div_nonneg (div_nonneg h (by norm_num)) (by norm_num)

lemma treasury_nonneg (cfg : Config) (h0 : 0 ≤ cfg.initial_investment)
    (hL : 0 ≤ cfg.leverage_ratio) (hH : 0 ≤ cfg.high_yield_rate)
    (hT : 0 ≤ cfg.treasury_rate) :
    ∀ k, 0 ≤ (stateAfter cfg k).treasury_principal
  | 0 => mul_nonneg h0 hL
  | k + 1 => by
    have ih := treasury_nonneg cfg h0 hL hH hT k
    rw [stateAfter_succ_treasury]
    have hy : 0 ≤ (stateAfter cfg k).high_yield_principal := by
      rw [stateAfter_high_yield]; exact h0
    exact add_nonneg ih
      (add_nonneg (mul_nonneg hy (monthly_high_nonneg cfg hH))
        (mul_nonneg ih (monthly_treasury_nonneg cfg hT)))

lemma treasury_step_le (cfg : Config) (h0 : 0 ≤ cfg.initial_investment)
    (hL : 0 ≤ cfg.leverage_ratio) (hH : 0 ≤ cfg.high_yield_rate)
    (hT : 0 ≤ cfg.treasury_rate) (k : ℕ) :
    (stateAfter cfg k).treasury_principal ≤ (stateAfter cfg (k + 1)).treasury_principal := by
  rw [stateAfter_succ_treasury]
  have ht := treasury_nonneg cfg h0 hL hH hT k
  have hy : 0 ≤ (stateAfter cfg k).high_yield_principal := by
    rw [stateAfter_high_yield]; exact h0
  exact le_add_of_nonneg_right
    (add_nonneg (mul_nonneg hy (monthly_high_nonneg cfg hH))
      (mul_nonneg ht (monthly_treasury_nonneg cfg hT)))

lemma sum_interest_range (cfg : Config) :
    ∀ k, (((List.range k).map (recordAt cfg)).map Record.total_interest_income).sum
          = (stateAfter cfg k).total_interest_income
  | 0 => by simp [stateAfter, initState]
  | k + 1 => by
    rw [List.range_succ]
    simp only [List.map_append, List.sum_append, List.map_cons, List.map_nil,
      List.sum_cons, List.sum_nil, add_zero]
    rw [sum_interest_range cfg k]
    rfl

/-! Claim theorems. -/

/-- C1 (counterexample): on the spec's worked scenario the engine's net
profit is exactly 1000, far from the claimed 1833.34: the code subtracts
`total_loan_cost = borrowed_amount + cumulative loan interest`, not the
borrowed principal alone. -/
theorem C1_net_profit_counterexample :
    (summary scenarioConfig).map Summary.net_profit = some 1000 ∧
    ¬ (|(1000 : ℚ) - 1833.34| ≤ 1) := by
  constructor
  · norm_num [summary, simRecords, monthsNat, scenarioConfig, recordAt, stateAfter,
      initState, finalState, monthStep, monthly_high, monthly_treasury, monthly_borrow,
      borrowed_amount, tax_paid, total_taxable_income, List.range_succ]
  · intro hcontra
    rw [abs_of_neg (by norm_num)] at hcontra
    norm_num at hcontra

/-- C1 (amended): on the scenario the engine produces exactly one record with
instrument-1 interest 3500/3 ≈ 1166.67, instrument-2 interest 1000.00,
reinvested 6500/3 ≈ 2166.67, taxable income 4000/3 ≈ 1333.33, tax
1000/3 ≈ 333.33, and net profit exactly 1000.00, where the final loan balance
subtracted is the borrowed principal plus cumulative loan interest. -/
theorem C1_scenario_amended :
    simRecords scenarioConfig = [scenarioRecord] ∧
    summary scenarioConfig = some scenarioSummary := by
  constructor
  · norm_num [simRecords, monthsNat, scenarioConfig, recordAt, stateAfter, initState,
      monthStep, monthly_high, monthly_treasury, monthly_borrow, borrowed_amount,
      scenarioRecord, List.range_succ, Record.mk.injEq]
  · norm_num [summary, simRecords, monthsNat, scenarioConfig, recordAt, stateAfter,
      initState, finalState, monthStep, monthly_high, monthly_treasury, monthly_borrow,
      borrowed_amount, tax_paid, total_taxable_income, scenarioSummary,
      List.range_succ, Summary.mk.injEq]

/-- C2 (counterexample): at `negTaxConfig` the tax computed by the code is
negative, and differs from the claimed `max 0 taxable * rate` (which is 0):
line 100 applies no flooring. -/
theorem C2_tax_floor_counterexample :
    tax_paid negTaxConfig < 0 ∧
    tax_paid negTaxConfig
      ≠ max 0 (total_taxable_income negTaxConfig) * (negTaxConfig.tax_rate / 100) := by
  norm_num [tax_paid, total_taxable_income, simRecords, monthsNat, negTaxConfig,
    recordAt, stateAfter, initState, monthStep, monthly_high, monthly_treasury,
    monthly_borrow, borrowed_amount, List.range_succ]

/-- C2 (amended): the code computes `tax = taxable_income * rate` with no
flooring, so whenever cumulative taxable income is negative and the tax rate
is positive, the tax due is negative rather than zero. -/
theorem C2_tax_no_floor (cfg : Config) (h1 : total_taxable_income cfg < 0)
    (h2 : 0 < cfg.tax_rate) : tax_paid cfg < 0 :=
  mul_neg_of_neg_of_pos h1 (div_pos h2 (by norm_num))

theorem C2_tax_no_floor_witness : tax_paid negTaxConfig < 0 :=
  C2_tax_no_floor negTaxConfig
    (by norm_num [total_taxable_income, simRecords, monthsNat, negTaxConfig,
      recordAt, stateAfter, initState, monthStep, monthly_high, monthly_treasury,
      monthly_borrow, borrowed_amount, List.range_succ])
    (by norm_num [negTaxConfig])

/-- C3: a configuration with tenure `N ≥ 1` produces exactly `N` monthly
records whose month indices are `1, …, N` in order. -/
theorem C3_record_count (cfg : Config) (h : 1 ≤ cfg.months) :
    ((simRecords cfg).length : ℤ) = cfg.months ∧
    (simRecords cfg).map Record.month = (List.range (monthsNat cfg)).map (· + 1) := by
  constructor
  · have hl : (simRecords cfg).length = monthsNat cfg := by
      simp [simRecords]
    rw [hl]
    exact Int.toNat_of_nonneg (le_trans (by norm_num) h)
  · rw [simRecords, List.map_map]
    rfl

theorem C3_record_count_witness :
    ((simRecords scenarioConfig).length : ℤ) = scenarioConfig.months ∧
    (simRecords scenarioConfig).map Record.month
      = (List.range (monthsNat scenarioConfig)).map (· + 1) :=
  C3_record_count scenarioConfig (by norm_num [scenarioConfig])

/-- C4: with non-negative capital, leverage and instrument rates, the treasury
(reinvestment-target) balance is non-decreasing from each month to the next,
both as loop state and as recorded, and the high-yield balance is
non-decreasing as well. -/
theorem C4_treasury_monotone (cfg : Config) (h0 : 0 ≤ cfg.initial_investment)
    (hL : 0 ≤ cfg.leverage_ratio) (hH : 0 ≤ cfg.high_yield_rate)
    (hT : 0 ≤ cfg.treasury_rate) (k : ℕ) :
    (stateAfter cfg k).treasury_principal ≤ (stateAfter cfg (k + 1)).treasury_principal ∧
    (stateAfter cfg k).high_yield_principal ≤ (stateAfter cfg (k + 1)).high_yield_principal ∧
    (recordAt cfg k).treasury_balance ≤ (recordAt cfg (k + 1)).treasury_balance := by
  refine ⟨treasury_step_le cfg h0 hL hH hT k, ?_, ?_⟩
  · rw [stateAfter_high_yield, stateAfter_high_yield]
  · rw [recordAt_treasury_balance, recordAt_treasury_balance]
    exact treasury_step_le cfg h0 hL hH hT (k + 1)

theorem C4_treasury_monotone_witness :
    (stateAfter scenarioConfig 0).treasury_principal
        ≤ (stateAfter scenarioConfig 1).treasury_principal ∧
    (stateAfter scenarioConfig 0).high_yield_principal
        ≤ (stateAfter scenarioConfig 1).high_yield_principal ∧
    (recordAt scenarioConfig 0).treasury_balance
        ≤ (recordAt scenarioConfig 1).treasury_balance :=
  C4_treasury_monotone scenarioConfig (by norm_num [scenarioConfig])
    (by norm_num [scenarioConfig]) (by norm_num [scenarioConfig])
    (by norm_num [scenarioConfig]) 0

/-- C5: the loan balance is never modified by the loop — it equals the
borrowed amount (capital × leverage) after every iteration — and every
month's loan interest is the constant `borrowed × rate / 12 / 100`. -/
theorem C5_loan_constant (cfg : Config) (k : ℕ) :
    (stateAfter cfg k).borrowed_balance = cfg.initial_investment * cfg.leverage_ratio ∧
    (recordAt cfg k).loan_interest_paid
      = (cfg.initial_investment * cfg.leverage_ratio) * (cfg.borrowing_rate / 12 / 100) := by
  have hb := stateAfter_borrowed cfg k
  refine ⟨hb, ?_⟩
  show (stateAfter cfg k).borrowed_balance * monthly_borrow cfg = _
  rw [hb]
  rfl

/-- C6: each month's interest per instrument is the start-of-month balance
times the fixed monthly rate (annual / 12 / 100), and the sum of both
interests is added to the treasury balance. -/
theorem C6_interest_step (cfg : Config) (k : ℕ) :
    (recordAt cfg k).high_yield_interest
      = (stateAfter cfg k).high_yield_principal * (cfg.high_yield_rate / 12 / 100) ∧
    (recordAt cfg k).treasury_interest
      = (stateAfter cfg k).treasury_principal * (cfg.treasury_rate / 12 / 100) ∧
    (recordAt cfg k).treasury_balance
      = (stateAfter cfg k).treasury_principal
        + ((recordAt cfg k).high_yield_interest + (recordAt cfg k).treasury_interest) :=
  ⟨rfl, rfl, rfl⟩

/-- C7: whenever the summary exists, the annualized return is
`(net profit / initial capital) * (12 / months) * 100` — linear, not CAGR. -/
theorem C7_annualized_linear (cfg : Config) (s : Summary)
    (h : summary cfg = some s) :
    s.annualized_return
      = (s.net_profit / cfg.initial_investment) * (12 / (cfg.months : ℚ)) * 100 := by
  unfold summary at h
  cases hl : (simRecords cfg).getLast? with
  | none => rw [hl] at h; simp at h
  | some last =>
    rw [hl] at h
    simp only [Option.map_some', Option.some.injEq] at h
    subst h
    rfl

theorem C7_annualized_linear_witness :
    scenarioSummary.annualized_return
      = (scenarioSummary.net_profit / scenarioConfig.initial_investment)
          * (12 / (scenarioConfig.months : ℚ)) * 100 :=
  C7_annualized_linear scenarioConfig scenarioSummary
    (by norm_num [summary, simRecords, monthsNat, scenarioConfig, recordAt, stateAfter,
      initState, finalState, monthStep, monthly_high, monthly_treasury, monthly_borrow,
      borrowed_amount, tax_paid, total_taxable_income, scenarioSummary,
      List.range_succ, Summary.mk.injEq])

/-- C8: the sum of the "Total Interest Income" column over all records equals
the loop's running accumulator `total_interest_income` at the end. -/
theorem C8_interest_sum (cfg : Config) :
    ((simRecords cfg).map Record.total_interest_income).sum
      = (finalState cfg).total_interest_income :=
  sum_interest_range cfg (monthsNat cfg)

/-- C9 (counterexample): with negative initial capital and tenure 12 the
engine silently produces 12 records and a summary: there is no
InvalidConfiguration check anywhere in the code. -/
theorem C9_validation_counterexample :
    (simRecords negCapitalConfig).length = 12 ∧
    (summary negCapitalConfig).isSome = true := by
  have hl : (simRecords negCapitalConfig).length = 12 := by
    simp [simRecords, monthsNat, negCapitalConfig]
  refine ⟨hl, ?_⟩
  simp only [summary, Option.isSome_map']
  rw [List.getLast?_isSome]
  intro hnil
  rw [hnil] at hl
  simp at hl

/-- C9 (amended): the engine validates nothing: with non-positive tenure the
loop body never runs (no records, and the summary stage has no last record to
read), while with positive tenure it produces records and a summary for any
capital, including non-positive capital. -/
theorem C9_no_validation (cfg : Config) :
    (cfg.months ≤ 0 → simRecords cfg = [] ∧ summary cfg = none) ∧
    (1 ≤ cfg.months → simRecords cfg ≠ [] ∧ (summary cfg).isSome = true) := by
  constructor
  · intro h
    have hz : monthsNat cfg = 0 := by
      simp [monthsNat, Int.toNat_eq_zero]
      exact h
    have he : simRecords cfg = [] := by
      simp [simRecords, hz]
    refine ⟨he, ?_⟩
    simp [summary, he]
  · intro h
    have hp : 0 < monthsNat cfg := by
      simp [monthsNat]
      exact lt_of_lt_of_le (by norm_num) h
    have hne : simRecords cfg ≠ [] := by
      intro hnil
      have : (simRecords cfg).length = monthsNat cfg := by simp [simRecords]
      rw [hnil] at this
      simp at this
      omega
    refine ⟨hne, ?_⟩
    simp only [summary, Option.isSome_map']
    rw [List.getLast?_isSome]
    exact hne

theorem C9_no_validation_witness :
    simRecords zeroTenureConfig = [] ∧ summary zeroTenureConfig = none :=
  (C9_no_validation zeroTenureConfig).1 (by norm_num [zeroTenureConfig])

/-- C10: the investor's own capital is allocated to the high-yield instrument
and the borrowed amount to the treasury instrument; the monthly step never
changes the high-yield principal or the loan balance, so the high-yield
principal is the initial capital after every iteration. -/
theorem C10_allocation_frame (cfg : Config) :
    (initState cfg).high_yield_principal = cfg.initial_investment ∧
    (initState cfg).treasury_principal = cfg.initial_investment * cfg.leverage_ratio ∧
    (∀ k, (stateAfter cfg k).high_yield_principal = cfg.initial_investment) ∧
    (∀ (s : State) (m : ℕ),
      (monthStep cfg s m).1.high_yield_principal = s.high_yield_principal ∧
      (monthStep cfg s m).1.borrowed_balance = s.borrowed_balance) :=
  ⟨rfl, rfl, stateAfter_high_yield cfg, fun _ _ => ⟨rfl, rfl⟩⟩

end BondSim
